import Mathlib

/-!
Verification development for the flogger structured-logging library
(src/src/flogger.py), shallowly embedded in Lean 4.

Python logging level constants, the formatter, the logger registry, the
abort/fatal diagnostics and the startup announcement are translated from
the source; external collaborators (wall-clock formatting, the stack of
the calling thread, the subprocess running git, sys.argv metadata) enter
as explicit parameters, following the spec boundary that treats them as
raw data sources.
-/

/-! ## Severity levels (values of the Python logging module) -/

def DEBUG : Nat := 10
def INFO : Nat := 20
def WARNING : Nat := 30
def ERROR : Nat := 40
def CRITICAL : Nat := 50

/-! ## StructuredFormatter -/

/-- `StructuredFormatter.LEVEL_MAP`: the severity-to-character table. -/
def LEVEL_MAP : List (Nat × Char) :=
  [(DEBUG, 'D'), (INFO, 'I'), (WARNING, 'W'), (ERROR, 'E'), (CRITICAL, 'F')]

/-- `self.LEVEL_MAP.get(record.levelno, 'I')`. -/
def level_char (levelno : Nat) : Char :=
  (LEVEL_MAP.lookup levelno).getD 'I'

/-- `0 if current_thread_id == main_thread_id else current_thread_id % 10000`. -/
def thread_tag (current main : Nat) : Nat :=
  if current = main then 0 else current % 10000

/-- One log record as seen by `StructuredFormatter.format`.  The rendered
local timestamp is produced by the datetime collaborator and carried as a
string; the message is the result of `record.getMessage()`. -/
structure LogRecord where
  levelno : Nat
  timestamp : String
  threadIdent : Nat
  mainThreadIdent : Nat
  filename : String
  lineno : Nat
  message : String

/-- `StructuredFormatter.format`: the single-line structured layout
`<SeverityChar><timestamp> <threadTag> <file>:<line>] <message>`. -/
def StructuredFormatter.format (r : LogRecord) : String :=
  String.singleton (level_char r.levelno) ++ r.timestamp ++ " "
    ++ toString (thread_tag r.threadIdent r.mainThreadIdent) ++ " "
    ++ r.filename ++ ":" ++ toString r.lineno ++ "] " ++ r.message

/-- A concrete record used to instantiate universally quantified theorems. -/
def sampleRecord : LogRecord :=
  { levelno := WARNING
    timestamp := "2026-10-12 10:00:00.123+0000"
    threadIdent := 7
    mainThreadIdent := 7
    filename := "app.py"
    lineno := 42
    message := "hello" }

/-- C2: the formatted line begins with exactly one severity character,
D/I/W/E/F for DEBUG/INFO/WARNING/ERROR/CRITICAL, defaulting to I on any
unrecognized severity. -/
theorem format_severity_char (r : LogRecord) (n : Nat)
    (hn : ¬ n ∈ [DEBUG, INFO, WARNING, ERROR, CRITICAL]) :
    (StructuredFormatter.format r).data.head? = some (level_char r.levelno) ∧
    level_char DEBUG = 'D' ∧ level_char INFO = 'I' ∧ level_char WARNING = 'W' ∧
    level_char ERROR = 'E' ∧ level_char CRITICAL = 'F' ∧ level_char n = 'I' := by
  simp only [List.mem_cons, List.not_mem_nil, or_false, not_or] at hn
  obtain ⟨h1, h2, h3, h4, h5⟩ := hn
  refine ⟨?_, by decide, by decide, by decide, by decide, by decide, ?_⟩
  · simp [StructuredFormatter.format, String.singleton]
  · simp only [DEBUG, INFO, WARNING, ERROR, CRITICAL] at h1 h2 h3 h4 h5
    have e1 : (n == 10) = false := by simpa using h1
    have e2 : (n == 20) = false := by simpa using h2
    have e3 : (n == 30) = false := by simpa using h3
    have e4 : (n == 40) = false := by simpa using h4
    have e5 : (n == 50) = false := by simpa using h5
    simp [level_char, LEVEL_MAP, List.lookup, DEBUG, INFO, WARNING, ERROR, CRITICAL,
      e1, e2, e3, e4, e5]

/-- C2 witness: the theorem instantiated at a concrete record and the
unrecognized severity 25. -/
theorem format_severity_char_witness :
    (StructuredFormatter.format sampleRecord).data.head?
        = some (level_char sampleRecord.levelno) ∧
    level_char DEBUG = 'D' ∧ level_char INFO = 'I' ∧ level_char WARNING = 'W' ∧
    level_char ERROR = 'E' ∧ level_char CRITICAL = 'F' ∧ level_char 25 = 'I' :=
  format_severity_char sampleRecord 25 (by decide)

/-- C3: the thread tag is 0 on the main thread and otherwise the thread
identifier modulo 10000, hence below 10000. -/
theorem thread_tag_spec (cur main : Nat) :
    (cur = main → thread_tag cur main = 0) ∧
    (cur ≠ main → thread_tag cur main = cur % 10000 ∧ thread_tag cur main < 10000) := by
  constructor
  · intro h
    simp [thread_tag, h]
  · intro h
    refine ⟨by simp [thread_tag, h], ?_⟩
    simp only [thread_tag, h, if_false]
    exact Nat.mod_lt _ (by norm_num)

/-- C3 witness: the theorem instantiated on the main thread and on a
worker thread with a large identifier. -/
theorem thread_tag_spec_witness :
    thread_tag 7 7 = 0 ∧
    (thread_tag 123456 7 = 123456 % 10000 ∧ thread_tag 123456 7 < 10000) :=
  ⟨(thread_tag_spec 7 7).1 rfl, (thread_tag_spec 123456 7).2 (by decide)⟩

/-! ## Startup announcement (`_log_program_start`) -/

/-- Outcome of `subprocess.run(["git", "rev-parse", "--short", "HEAD"], timeout=2)`:
either the process completed with a return code and captured stdout, or one of
the two exceptions caught by the source was raised. -/
inductive GitOutcome where
  | completed (returncode : Nat) (stdout : String)
  | timeoutExpired
  | fileNotFound
deriving DecidableEq

/-- Process metadata read by `_log_program_start` from its collaborators:
`os.getpid()`, the formatted `st_mtime` of the resolved script (absent when
`stat` raises), `sys.version`, the derived program name and `sys.argv[1:]`. -/
structure StartupEnv where
  pid : Nat
  mtimeResult : Option String
  pythonVersion : String
  programName : String
  argvRest : List String

/-- The optional `commit=<rev>` part: on a zero return code the stripped
stdout is kept when non-empty (a falsy empty string is dropped); a non-zero
exit, a timeout or a missing tool yield nothing; nothing is run when
`include_git` is off. -/
def git_commit_token (include_git : Bool) (git : GitOutcome) : Option String :=
  if include_git then
    match git with
    | GitOutcome.completed rc out =>
      let git_commit := if rc == 0 then some out.trim else none
      match git_commit with
      | some s => if s ≠ "" then some ("commit=" ++ s) else none
      | none => none
    | GitOutcome.timeoutExpired => none
    | GitOutcome.fileNotFound => none
  else none

/-- `f'"{arg}"' if " " in arg else arg`. -/
def quote_arg (arg : String) : String :=
  if arg.contains ' ' then "\"" ++ arg ++ "\"" else arg

/-- `_log_program_start`: the text of the single INFO startup record —
pid, script modification time (or "unknown"), interpreter version, the
optional commit token, and the reconstructed command line last. -/
def _log_program_start (include_git : Bool) (git : GitOutcome) (env : StartupEnv) : String :=
  let mtime_str := env.mtimeResult.getD "unknown"
  let base := ["pid=" ++ toString env.pid, "modified=" ++ mtime_str,
               "python=" ++ env.pythonVersion]
  let info_parts := base ++ (git_commit_token include_git git).toList
  let cmd_parts := env.programName :: env.argvRest
  let cmd_str := String.intercalate " " (cmd_parts.map quote_arg)
  "Starting: " ++ String.intercalate " " info_parts ++ " " ++ cmd_str

/-! ## Sinks, logger state and `get_logger` -/

/-- One handler attached to a logger: `FileHandler(log_file)`,
`StreamHandler(sys.stderr)` or `StreamHandler(sys.stdout)`. -/
inductive Sink where
  | file (path : String)
  | stderrStream
  | stdoutStream
deriving DecidableEq

/-- Keyword options of `get_logger` (their Python defaults are irrelevant to
the claims, which quantify over all combinations). -/
structure Options where
  include_git : Bool
  auto_abort_trace : Bool
  to_file : Bool
  to_stderr : Bool

/-- Observable initialization side effects of `get_logger`, in program
order: directory creation plus file opening, handler attachment, the level
assignment, signal-handler installation and the records emitted. -/
inductive Effect where
  | openFileSink (path : String)
  | attachStderrSink
  | attachStdoutSink
  | setLevel (level : Nat)
  | installSignalHandlers
  | emit (level : Nat) (message : String)
deriving DecidableEq

/-- The per-name state held by the logging module: attached handlers and
the configured level (a fresh logger starts at NOTSET = 0). -/
structure LoggerState where
  handlers : List Sink
  level : Nat

/-- The body of the `if not logger.handlers` block of `get_logger`: attach
the configured sinks, set the level to INFO, optionally install the abort
handlers, emit the startup record and, with a file sink, the
"Logging to" record.  `logPath` is the resolved `log_dir / log_filename`. -/
def initLogger (opts : Options) (logPath : String) (env : StartupEnv)
    (git : GitOutcome) : LoggerState × List Effect :=
  let handlers :=
    (if opts.to_file then [Sink.file logPath] else [])
    ++ (if opts.to_stderr then [Sink.stderrStream] else [])
    ++ (if !opts.to_file && !opts.to_stderr then [Sink.stdoutStream] else [])
  let effects :=
    (if opts.to_file then [Effect.openFileSink logPath] else [])
    ++ (if opts.to_stderr then [Effect.attachStderrSink] else [])
    ++ (if !opts.to_file && !opts.to_stderr then [Effect.attachStdoutSink] else [])
    ++ [Effect.setLevel INFO]
    ++ (if opts.auto_abort_trace then [Effect.installSignalHandlers] else [])
    ++ [Effect.emit INFO (_log_program_start opts.include_git git env)]
    ++ (if opts.to_file then [Effect.emit INFO ("Logging to " ++ logPath)] else [])
  ({ handlers := handlers, level := INFO }, effects)

/-- The process-wide table behind `logging.getLogger`: name to state
(`None` keys the root logger). -/
def Registry : Type := Option String → Option LoggerState

/-- The table before any logger has been requested. -/
def emptyRegistry : Registry := fun _ => none

/-- Updating the table entry for one name. -/
def Registry.insert (reg : Registry) (name : Option String) (l : LoggerState) : Registry :=
  fun n => if n = name then some l else reg n

/-- `get_logger`: fetch or create the named logger; when it has no handlers
yet, run the one-time initialization, otherwise return it untouched with no
side effects. -/
def get_logger (reg : Registry) (name : Option String) (opts : Options)
    (logPath : String) (env : StartupEnv) (git : GitOutcome) :
    Registry × LoggerState × List Effect :=
  let logger := (reg name).getD { handlers := [], level := 0 }
  if logger.handlers.isEmpty then
    let init := initLogger opts logPath env git
    (reg.insert name init.1, init.1, init.2)
  else
    (reg, logger, [])

/-- A log call on a configured logger: the line reaches every attached
handler when the severity clears the logger level, and none otherwise. -/
def log_call (l : LoggerState) (severity : Nat) (line : String) : List (Sink × String) :=
  if l.level ≤ severity then l.handlers.map (fun h => (h, line)) else []

/-- Modelled from the spec: `get_log_file` (the introspection operation
`resolvedFilePath`) is called by `src/tests/test_flogger.py` but its
definition is absent from `src/src/flogger.py`; per the spec it returns the
resolved log file path for a logger whose sinks include a file sink, and
nothing otherwise. -/
def get_log_file (l : LoggerState) : Option String :=
  l.handlers.findSome? (fun h =>
    match h with
    | Sink.file p => some p
    | Sink.stderrStream => none
    | Sink.stdoutStream => none)

/-! ## Abort diagnostics -/

/-- What one diagnostic entry point does: the records it emits (level and
message pairs, in order) and the exit code it passes to `sys.exit`, when it
terminates the process. -/
structure HandlerResult where
  emitted : List (Nat × String)
  exitCode : Option Nat

/-- The signal handler installed by `_setup_abort_handler`: one CRITICAL
record naming the signal and carrying the formatted stack of the
interrupted frame, then `sys.exit(1)`. -/
def abort_handler (signalName : String) (stackTrace : String) : HandlerResult :=
  { emitted := [(CRITICAL,
      "Program exited with " ++ signalName ++ ", stack trace:\n" ++ stackTrace)]
    exitCode := some 1 }

/-- `log_stack_trace`: one WARNING record, message then the joined frames
of `traceback.format_stack()` with the last entry (this very call) dropped;
the process continues.  `frames` are the formatted frames, innermost last. -/
def log_stack_trace (message : String) (frames : List String) : HandlerResult :=
  let stack_trace := String.join frames.dropLast
  { emitted := [(WARNING, message ++ "Stack trace:\n" ++ stack_trace)]
    exitCode := none }

/-- `die`: one CRITICAL record, message then the joined frames with the
last entry (the `die` frame itself) dropped, then `sys.exit(1)`. -/
def die (message : String) (frames : List String) : HandlerResult :=
  let stack_trace := String.join frames.dropLast
  { emitted := [(CRITICAL, message ++ "\nStack trace:\n" ++ stack_trace)]
    exitCode := some 1 }

/-! ## Concrete instances used by witnesses -/

/-- A concrete metadata sample. -/
def sampleEnv : StartupEnv :=
  { pid := 1234
    mtimeResult := some "2026-10-12 09:00:00"
    pythonVersion := "3.12.1"
    programName := "app"
    argvRest := ["--level", "info"] }

/-- A concrete option set with a file sink and no console sink. -/
def sampleOpts : Options :=
  { include_git := false, auto_abort_trace := true, to_file := true, to_stderr := false }

/-- A second, different option set, for re-acquisition. -/
def sampleOpts2 : Options :=
  { include_git := true, auto_abort_trace := false, to_file := false, to_stderr := true }

/-! ## Helper lemmas -/

/-- Initialization always attaches at least one handler (file, stderr, or
the stdout fallback), so a configured logger is never re-initialized. -/
theorem initLogger_handlers_nonempty (opts : Options) (p : String) (e : StartupEnv)
    (g : GitOutcome) : ((initLogger opts p e g).1.handlers).isEmpty = false := by
  obtain ⟨ig, aat, tf, ts⟩ := opts
  cases tf <;> cases ts <;> simp [initLogger]

/-! ## Claim theorems -/

/-- C1: on a fresh name the initialization effects happen, once; any later
acquisition of the same name performs no effects, ignores the options it is
passed and returns the already-configured instance with the table unchanged. -/
theorem get_logger_once (reg : Registry) (name : Option String)
    (opts1 : Options) (p1 : String) (e1 : StartupEnv) (g1 : GitOutcome)
    (opts2 : Options) (p2 : String) (e2 : StartupEnv) (g2 : GitOutcome)
    (h : reg name = none) :
    (get_logger reg name opts1 p1 e1 g1).2.2 = (initLogger opts1 p1 e1 g1).2 ∧
    get_logger (get_logger reg name opts1 p1 e1 g1).1 name opts2 p2 e2 g2
      = ((get_logger reg name opts1 p1 e1 g1).1,
         (get_logger reg name opts1 p1 e1 g1).2.1, []) := by
  have hfirst : get_logger reg name opts1 p1 e1 g1
      = (reg.insert name (initLogger opts1 p1 e1 g1).1,
         (initLogger opts1 p1 e1 g1).1, (initLogger opts1 p1 e1 g1).2) := by
    simp [get_logger, h]
  refine ⟨by rw [hfirst], ?_⟩
  rw [hfirst]
  simp [get_logger, Registry.insert, initLogger_handlers_nonempty]

/-- C1 witness: a first acquisition on the empty table followed by a second
acquisition with different options. -/
theorem get_logger_once_witness :
    (get_logger emptyRegistry (some "app") sampleOpts "x.log" sampleEnv
        GitOutcome.fileNotFound).2.2
      = (initLogger sampleOpts "x.log" sampleEnv GitOutcome.fileNotFound).2 ∧
    get_logger (get_logger emptyRegistry (some "app") sampleOpts "x.log" sampleEnv
        GitOutcome.fileNotFound).1 (some "app") sampleOpts2 "y.log" sampleEnv
        GitOutcome.timeoutExpired
      = ((get_logger emptyRegistry (some "app") sampleOpts "x.log" sampleEnv
            GitOutcome.fileNotFound).1,
         (get_logger emptyRegistry (some "app") sampleOpts "x.log" sampleEnv
            GitOutcome.fileNotFound).2.1, []) :=
  get_logger_once emptyRegistry (some "app") sampleOpts "x.log" sampleEnv
    GitOutcome.fileNotFound sampleOpts2 "y.log" sampleEnv GitOutcome.timeoutExpired rfl

/-- C4: on first acquisition a file sink is attached iff `to_file`, a
stderr sink iff `to_stderr`, and a stdout sink iff both are disabled. -/
theorem sink_selection (opts : Options) (p : String) (e : StartupEnv) (g : GitOutcome) :
    ((∃ q, Sink.file q ∈ (initLogger opts p e g).1.handlers) ↔ opts.to_file = true) ∧
    (Sink.stderrStream ∈ (initLogger opts p e g).1.handlers ↔ opts.to_stderr = true) ∧
    (Sink.stdoutStream ∈ (initLogger opts p e g).1.handlers
      ↔ (opts.to_file = false ∧ opts.to_stderr = false)) := by
  obtain ⟨ig, aat, tf, ts⟩ := opts
  cases tf <;> cases ts <;> simp [initLogger]

/-- C5: the abort handler emits exactly one CRITICAL record, whose message
contains the symbolic signal name and the captured stack as a multi-line
payload, then exits with the non-zero status 1. -/
theorem abort_handler_spec (sig trace : String) :
    ∃ msg, (abort_handler sig trace).emitted = [(CRITICAL, msg)] ∧
      level_char CRITICAL = 'F' ∧
      sig.data <:+: msg.data ∧ trace.data <:+: msg.data ∧ '\n' ∈ msg.data ∧
      (abort_handler sig trace).exitCode = some 1 ∧ (1 : Nat) ≠ 0 := by
  refine ⟨"Program exited with " ++ sig ++ ", stack trace:\n" ++ trace,
    rfl, by decide, ?_, ?_, ?_, rfl, by decide⟩
  · exact ⟨"Program exited with ".data, ", stack trace:\n".data ++ trace.data,
      by simp [String.data_append]⟩
  · exact ⟨"Program exited with ".data ++ sig.data ++ ", stack trace:\n".data, [],
      by simp [String.data_append]⟩
  · have hn : '\n' ∈ ", stack trace:\n".data := by decide
    simp only [String.data_append, List.mem_append]
    tauto

/-- C6: `die` emits one CRITICAL record (severity character F) whose
payload is the message followed by the stack trace with the last frame
(the frame of `die` itself) excluded, then exits with status 1. -/
theorem die_spec (message : String) (frames : List String) :
    ∃ msg, (die message frames).emitted = [(CRITICAL, msg)] ∧
      level_char CRITICAL = 'F' ∧
      msg = message ++ "\nStack trace:\n" ++ String.join frames.dropLast ∧
      message.data <:+: msg.data ∧ '\n' ∈ msg.data ∧
      (die message frames).exitCode = some 1 := by
  refine ⟨message ++ "\nStack trace:\n" ++ String.join frames.dropLast,
    rfl, by decide, rfl, ?_, ?_, rfl⟩
  · exact ⟨[], "\nStack trace:\n".data ++ (String.join frames.dropLast).data,
      by simp [String.data_append]⟩
  · have hn : '\n' ∈ "\nStack trace:\n".data := by decide
    simp only [String.data_append, List.mem_append]
    tauto

/-- C7: `log_stack_trace` emits one WARNING record (severity character W)
whose payload is the message followed by the stack trace with the last
frame (the frame of the call itself) excluded, and does not terminate. -/
theorem log_stack_trace_spec (message : String) (frames : List String) :
    ∃ msg, (log_stack_trace message frames).emitted = [(WARNING, msg)] ∧
      level_char WARNING = 'W' ∧
      msg = message ++ "Stack trace:\n" ++ String.join frames.dropLast ∧
      message.data <:+: msg.data ∧ '\n' ∈ msg.data ∧
      (log_stack_trace message frames).exitCode = none := by
  refine ⟨message ++ "Stack trace:\n" ++ String.join frames.dropLast,
    rfl, by decide, rfl, ?_, ?_, rfl⟩
  · exact ⟨[], "Stack trace:\n".data ++ (String.join frames.dropLast).data,
      by simp [String.data_append]⟩
  · have hn : '\n' ∈ "Stack trace:\n".data := by decide
    simp only [String.data_append, List.mem_append]
    tauto

/-- C8: with revision inclusion enabled, a non-zero git exit, a timeout or
a missing tool each produce exactly the startup message of a run with the
revision disabled — the token is silently omitted — and the whole
initialization is unchanged, never an error. -/
theorem git_failure_silent (env : StartupEnv) (opts : Options) (p : String)
    (rc : Nat) (out : String) (hrc : rc ≠ 0) :
    (_log_program_start true (GitOutcome.completed rc out) env
      = _log_program_start false (GitOutcome.completed rc out) env) ∧
    (_log_program_start true GitOutcome.timeoutExpired env
      = _log_program_start false GitOutcome.timeoutExpired env) ∧
    (_log_program_start true GitOutcome.fileNotFound env
      = _log_program_start false GitOutcome.fileNotFound env) ∧
    initLogger { opts with include_git := true } p env GitOutcome.timeoutExpired
      = initLogger { opts with include_git := false } p env GitOutcome.timeoutExpired := by
  have hbeq : (rc == 0) = false := by simpa using hrc
  refine ⟨?_, rfl, rfl, ?_⟩
  · simp [_log_program_start, git_commit_token, hbeq]
  · simp [initLogger, _log_program_start, git_commit_token]

/-- C8 witness: the theorem at a concrete environment with exit code 1. -/
theorem git_failure_silent_witness :
    (_log_program_start true (GitOutcome.completed 1 "deadbee") sampleEnv
      = _log_program_start false (GitOutcome.completed 1 "deadbee") sampleEnv) ∧
    (_log_program_start true GitOutcome.timeoutExpired sampleEnv
      = _log_program_start false GitOutcome.timeoutExpired sampleEnv) ∧
    (_log_program_start true GitOutcome.fileNotFound sampleEnv
      = _log_program_start false GitOutcome.fileNotFound sampleEnv) ∧
    initLogger { sampleOpts with include_git := true } "x.log" sampleEnv
        GitOutcome.timeoutExpired
      = initLogger { sampleOpts with include_git := false } "x.log" sampleEnv
        GitOutcome.timeoutExpired :=
  git_failure_silent sampleEnv sampleOpts "x.log" 1 "deadbee" (by decide)

/-- C9: for a logger acquired under a fresh name, the introspection
operation returns the resolved log file path exactly when a file sink was
configured, and nothing otherwise. -/
theorem get_log_file_spec (reg : Registry) (name : Option String) (opts : Options)
    (p : String) (e : StartupEnv) (g : GitOutcome) (h : reg name = none) :
    get_log_file (get_logger reg name opts p e g).2.1
      = if opts.to_file = true then some p else none := by
  have hfirst : (get_logger reg name opts p e g).2.1 = (initLogger opts p e g).1 := by
    simp [get_logger, h]
  rw [hfirst]
  obtain ⟨ig, aat, tf, ts⟩ := opts
  cases tf <;> cases ts <;> simp [initLogger, get_log_file]

/-- C9 witness: a fresh acquisition with the file sink enabled resolves to
the configured path. -/
theorem get_log_file_spec_witness :
    get_log_file (get_logger emptyRegistry (some "t") sampleOpts "x.log" sampleEnv
        GitOutcome.fileNotFound).2.1
      = if sampleOpts.to_file = true then some "x.log" else none :=
  get_log_file_spec emptyRegistry (some "t") sampleOpts "x.log" sampleEnv
    GitOutcome.fileNotFound rfl

/-- C10: every logger initialized by `get_logger` has its level set to
INFO, so a DEBUG call emits to no sink, although DEBUG has its own
severity character in the table. -/
theorem default_level_info (opts : Options) (p : String) (e : StartupEnv)
    (g : GitOutcome) :
    (initLogger opts p e g).1.level = INFO ∧
    (∀ msg, log_call (initLogger opts p e g).1 DEBUG msg = []) ∧
    LEVEL_MAP.lookup DEBUG = some 'D' := by
  refine ⟨rfl, ?_, by decide⟩
  intro msg
  simp [log_call, initLogger, INFO, DEBUG]
